import Mathlib

/-!
Verification development for the BlueShark backend (Flask + Firestore).

The definitions below are a shallow embedding of `src/backend/app.py` and
`src/backend/external_apis.py`: Firestore collections become Lean lists of
documents with natural-number document ids, Python floats become exact
rationals, fallible Python code (raised exceptions) becomes `Except`, and
`dict.get` defaults become `Option` handling.  Each definition names the
Python function it embeds.
-/

namespace BlueShark

/-- Python truthiness of an optional string (`not lat` is true for `None`
and for the empty string). -/
def pyTruthyStr : Option String → Bool
  | none => false
  | some s => !s.isEmpty

/-- Value of a list of decimal digit characters, `none` if any character is
not a digit.  The empty list yields `some 0`; emptiness is checked by the
caller. -/
def digitsVal : List Char → Option Nat
  | [] => some 0
  | c :: rest =>
    if c.isDigit then
      (digitsVal rest).map (fun n => (c.toNat - 48) * 10 ^ rest.length + n)
    else none

/-- Split a character list at the first dot, as in a decimal literal. -/
def splitDot : List Char → List Char × Option (List Char)
  | [] => ([], none)
  | c :: rest =>
    if c = '.' then ([], some rest)
    else
      let p := splitDot rest
      (c :: p.1, p.2)

/-- Parse an unsigned decimal literal (`"12"`, `"12.5"`, `"12."`, `".5"`),
mirroring the strings Python's `float` accepts in the forms this backend
receives.  Returns `none` on anything non-numeric (Python raises
`ValueError`). -/
def parseUnsigned (l : List Char) : Option Rat :=
  let p := splitDot l
  match p.2 with
  | none =>
    if p.1.isEmpty then none
    else (digitsVal p.1).map (fun n => (n : Rat))
  | some f =>
    if p.1.isEmpty && f.isEmpty then none
    else
      match digitsVal p.1, digitsVal f with
      | some i, some fr => some ((i : Rat) + (fr : Rat) / (10 ^ f.length : Nat))
      | _, _ => none

/-- Behavior of `float(s)` on a string: numeric value, or `none` for `ValueError`. -/
def strToRat (s : String) : Option Rat :=
  match s.data with
  | '-' :: rest => (parseUnsigned rest).map (fun q => -q)
  | l => parseUnsigned l

/-- A JSON-ish numeric field as it arrives from the remote API: already a
number, a string (which `float` must parse), or missing (the code supplies
the default `0`). -/
inductive PyNum where
  | num (q : Rat)
  | str (s : String)
  | missing
deriving DecidableEq

/-- Behavior of `float(item.get(field, 0))`: numbers pass through, strings are parsed
(`.error` models the `ValueError` escaping), a missing field defaults to 0. -/
def pyFloat : PyNum → Except String Rat
  | .num q => .ok q
  | .str s =>
    match strToRat s with
    | some q => .ok q
    | none => .error "ValueError"
  | .missing => .ok 0

/-! ## Data model (spec §3, `location` documents) -/

/-- A location record, the normalized schema shared by persisted documents
and adapter outputs.  `id` is the copy of the document id stored inside the
data (set by the sync insert path); `source = none` marks a user-submitted
record. -/
structure LocationRec where
  id : Option Nat
  name : String
  type : String
  address : String
  lat : Rat
  lng : Rat
  positive_count : Nat
  neutral_count : Nat
  negative_count : Nat
  total_ratings : Nat
  source : Option String
  external_id : String
  ada_accessible : Option Bool
  unisex : Option Bool
  last_updated : Nat
deriving DecidableEq

/-- The spec's rating-count invariant for one location record. -/
def locInv (r : LocationRec) : Prop :=
  r.total_ratings = r.positive_count + r.neutral_count + r.negative_count

instance (r : LocationRec) : Decidable (locInv r) := by
  unfold locInv; infer_instance

/-- All four rating counters are zero (freshly fetched external record). -/
def zeroCounts (r : LocationRec) : Prop :=
  r.positive_count = 0 ∧ r.neutral_count = 0 ∧ r.negative_count = 0 ∧
    r.total_ratings = 0

/-- A Firestore document in the `locations` collection: document id plus
data. -/
structure Doc where
  docId : Nat
  data : LocationRec
deriving DecidableEq

/-- A rating submitted through `POST /api/ratings` (the fields the backend
reads; `sentiment` and `location_id` come from the client unchecked). -/
structure RatingIn where
  sentiment : Option String
  location_id : Option Nat
deriving DecidableEq

/-- A stored document of the `ratings` collection. -/
structure RatingDoc where
  docId : Nat
  sentiment : Option String
  location_id : Option Nat
  timestamp : Nat
deriving DecidableEq

/-- The Firestore state the backend touches: the two collections, plus a
counter from which fresh document ids are drawn. -/
structure Store where
  nextId : Nat
  locations : List Doc
  ratings : List RatingDoc
deriving DecidableEq

def emptyStore : Store := ⟨0, [], []⟩

/-! ## Normalized rating and the rating_min filter
(`get_locations`, `app.py` lines 117–130) -/

/-- The normalized 0–5 rating exactly as `get_locations` computes it:
`positive_weight + (-1) * negative_count`, divided by `total_ratings`,
then `(+1)/2*5`. -/
def normalizedOf (r : LocationRec) : Rat :=
  let positive_weight : Rat := r.positive_count
  let negative_weight : Rat := -1 * (r.negative_count : Rat)
  let total_weight : Rat := positive_weight + negative_weight
  (total_weight / (r.total_ratings : Rat) + 1) / 2 * 5

/-- The rating `get_locations` associates to a record: computed only when
`total_ratings > 0`, otherwise the record counts as unrated. -/
def computedRating (r : LocationRec) : Option Rat :=
  if 0 < r.total_ratings then some (normalizedOf r) else none

/-- The keep/drop decision of the rating_min filter in `get_locations`:
rated records are dropped when their normalized rating is below
`rating_min`; unrated records are dropped only when `rating_min > 0` and
the record's `source` field is falsy (user-submitted). -/
def ratingFilterKeep (r : LocationRec) (rating_min : Rat) : Bool :=
  if 0 < r.total_ratings then
    !(decide (normalizedOf r < rating_min))
  else if 0 < rating_min ∧ pyTruthyStr r.source = false then
    false
  else
    true

/-! ## Rating service (`submit_rating`, `app.py` lines 341–405) -/

/-- Outcome of `POST /api/ratings` as an HTTP-level result. -/
inductive SubmitOutcome where
  | createdNew (locId : Nat)
  | updatedExisting
  | notFound
  | error500
deriving DecidableEq

/-- The count update for an existing location: `total_ratings` always gets
`Increment(1)`, and the counter matching the sentiment (if any) gets
`Increment(1)`. -/
def bumpCounts (d : LocationRec) (sentiment : Option String) : LocationRec :=
  { d with
    total_ratings := d.total_ratings + 1
    positive_count := d.positive_count + (if sentiment = some "positive" then 1 else 0)
    neutral_count := d.neutral_count + (if sentiment = some "neutral" then 1 else 0)
    negative_count := d.negative_count + (if sentiment = some "negative" then 1 else 0) }

/-- Embeds `submit_rating`: the rating document is written first; then either a new
location is created (`isNewLocation` with non-empty `locationData`) or the
existing location named by the rating's `location_id` is incremented,
404 when the document does not exist.  `locationData = none` models a
missing or empty (falsy) `locationData` dict; `location_id = none` models a
rating without `location_id` (`document(None)` raises, giving a 500 with
the rating already persisted). -/
def submit_rating (st : Store) (rating : RatingIn) (is_new_location : Bool)
    (locationData : Option LocationRec) (now : Nat) : SubmitOutcome × Store :=
  let ratingId := st.nextId
  let ratingDoc : RatingDoc := ⟨ratingId, rating.sentiment, rating.location_id, now⟩
  let st1 : Store := { st with ratings := st.ratings ++ [ratingDoc], nextId := st.nextId + 1 }
  match is_new_location, locationData with
  | true, some ld =>
    let s := rating.sentiment
    let ld' := { ld with
      positive_count := if s = some "positive" then 1 else 0
      neutral_count := if s = some "neutral" then 1 else 0
      negative_count := if s = some "negative" then 1 else 0
      total_ratings := 1 }
    let locId := st1.nextId
    let st2 : Store := { st1 with
      locations := st1.locations ++ [⟨locId, ld'⟩]
      nextId := st1.nextId + 1 }
    let st3 : Store := { st2 with
      ratings := st2.ratings.map fun rd =>
        if rd.docId = ratingId then { rd with location_id := some locId } else rd }
    (.createdNew locId, st3)
  | _, _ =>
    match rating.location_id with
    | none => (.error500, st1)
    | some lid =>
      match st1.locations.find? (fun d => d.docId == lid) with
      | none => (.notFound, st1)
      | some _ =>
        (.updatedExisting,
         { st1 with
           locations := st1.locations.map fun d =>
             if d.docId = lid then { d with data := bumpCounts d.data rating.sentiment } else d })

/-! ## Persistence sync (`save_external_locations_to_firebase`,
`external_apis.py` lines 354–393) -/

/-- A buffered Firestore batch write: either an update of the five mutable
display fields of an existing document, or a `set` of a fresh document. -/
inductive BatchOp where
  | update (docId : Nat) (name address : String) (lat lng : Rat) (last_updated : Nat)
  | setDoc (docId : Nat) (data : LocationRec)
deriving DecidableEq

/-- The `(external_id, source)` equality test of the sync query. -/
def keyMatch (eid : String) (src : Option String) (d : Doc) : Bool :=
  decide (d.data.external_id = eid ∧ d.data.source = src)

/-- The `where('external_id','==',..).where('source','==',..)` query:
first matching document of the collection. -/
def findByKey (locs : List Doc) (eid : String) (src : Option String) : Option Doc :=
  locs.find? (keyMatch eid src)

/-- Build the batch operations for a list of incoming records.  Queries run
against the store as it was before the batch (batch writes are buffered,
reads are not); new document ids are drawn from the counter. -/
def buildOps (orig : List Doc) (nid : Nat) : List LocationRec → List BatchOp × Nat
  | [] => ([], nid)
  | l :: rest =>
    match findByKey orig l.external_id l.source with
    | some ex =>
      let p := buildOps orig nid rest
      (.update ex.docId l.name l.address l.lat l.lng l.last_updated :: p.1, p.2)
    | none =>
      let p := buildOps orig (nid + 1) rest
      (.setDoc nid { l with id := some nid } :: p.1, p.2)

/-- Apply one buffered write to the collection. -/
def applyOp (locs : List Doc) : BatchOp → List Doc
  | .update did name address lat lng lu =>
    locs.map fun d =>
      if d.docId = did then
        { d with data := { d.data with
            name := name, address := address, lat := lat, lng := lng,
            last_updated := lu } }
      else d
  | .setDoc did data => locs ++ [⟨did, data⟩]

/-- Commit: apply the buffered writes in order. -/
def applyOps (locs : List Doc) (ops : List BatchOp) : List Doc :=
  ops.foldl applyOp locs

/-- Embeds `save_external_locations_to_firebase`: upsert each incoming record by
`(external_id, source)`, updating display fields of the first match or
inserting a fresh document carrying its own id. -/
def save_external_locations_to_firebase (st : Store) (locs : List LocationRec) : Store :=
  let p := buildOps st.locations st.nextId locs
  { st with locations := applyOps st.locations p.1, nextId := p.2 }

/-- Number of stored documents whose data carries the given
`(external_id, source)` key. -/
def countKey (locs : List Doc) (eid : String) (src : Option String) : Nat :=
  (locs.filter (keyMatch eid src)).length

/-! ## Remote restroom adapter (`get_refuge_restrooms`,
`external_apis.py` lines 33–160) -/

/-- One raw item of a Refuge Restrooms API page, restricted to the fields
the transform reads.  `Option` models missing fields (so `dict.get`
defaults apply); latitude/longitude keep their raw JSON shape because
`float(...)` can fail on them. -/
structure RawRestroom where
  name : Option String
  street : Option String
  city : Option String
  state : Option String
  latitude : PyNum
  longitude : PyNum
  rid : String
  accessible : Bool
  unisex : Bool
deriving DecidableEq

/-- Result of one page request: a network/HTTP failure
(`requests.RequestException`) or a JSON list of items. -/
inductive PageFetch where
  | fail
  | ok (items : List RawRestroom)
deriving DecidableEq

/-- The pagination loop of `get_refuge_restrooms` (lines 77–104): fetch
pages starting at `currentPage`, stop on an empty or short page, on
reaching `maxResults`, or past `maxPages`.  Returns the accumulated raw
items and the list of pages fetched; `.error ()` is a
`requests.RequestException` escaping the loop. -/
def refugeLoop (env : Nat → PageFetch) (perPage maxResults maxPages : Nat)
    (currentPage : Nat) (allData : List RawRestroom) (fetched : List Nat) :
    Except Unit (List RawRestroom × List Nat) :=
  if h : allData.length < maxResults then
    match env currentPage with
    | .fail => .error ()
    | .ok pageData =>
      if pageData.isEmpty ∨ pageData.length < perPage then
        .ok (allData ++ pageData, fetched ++ [currentPage])
      else
        let allData' := allData ++ pageData
        if maxResults ≤ allData'.length ∨ maxPages < currentPage + 1 then
          .ok (allData', fetched ++ [currentPage])
        else
          refugeLoop env perPage maxResults maxPages (currentPage + 1) allData'
            (fetched ++ [currentPage])
  else .ok (allData, fetched)
termination_by maxResults - allData.length
decreasing_by
  simp only [List.length_append]
  have hne : pageData ≠ [] := by
    intro hnil
    exact (by simp [hnil] at *)
  have hpos : 0 < pageData.length := List.length_pos.mpr hne
  exact Nat.sub_lt_sub_left h (by omega)

/-- The per-item transform (lines 115–148): build the comma-joined address
from non-empty street/city/state parts, default the name, parse the
coordinates with `float` (a non-numeric string raises `ValueError`). -/
def transformRestroom (now : Nat) (item : RawRestroom) : Except String LocationRec := do
  let street := item.street.getD ""
  let city := item.city.getD ""
  let state := item.state.getD ""
  let address_parts := ([street, city, state].filter (fun s => !s.isEmpty))
  let address := if address_parts.isEmpty then "Unknown Address"
                 else String.intercalate ", " address_parts
  let lat ← pyFloat item.latitude
  let lng ← pyFloat item.longitude
  pure
    { id := none
      name := item.name.getD "Unknown Restroom"
      type := "restroom"
      address := address
      lat := lat
      lng := lng
      positive_count := 0
      neutral_count := 0
      negative_count := 0
      total_ratings := 0
      source := some "refuge_restrooms"
      external_id := item.rid
      ada_accessible := some item.accessible
      unisex := some item.unisex
      last_updated := now }

/-- Transform every fetched raw item; the first `ValueError` aborts
(the code's `for` loop raises out of the `try`). -/
def transformAll (now : Nat) : List RawRestroom → Except String (List LocationRec)
  | [] => .ok []
  | i :: rest =>
    match transformRestroom now i with
    | .error e => .error e
    | .ok r =>
      match transformAll now rest with
      | .error e => .error e
      | .ok rs => .ok (r :: rs)

/-- Embeds `get_refuge_restrooms` (cache aside): run the pagination loop, return
`[]` when a `requests.RequestException` was raised (lines 158–160), trim to
`max_results`, then transform.  Exceptions other than `RequestException`
(here: `ValueError` from `float`, or the `ZeroDivisionError` computing
`max_pages` with `per_page = 0`) propagate as `.error`. -/
def get_refuge_restrooms (env : Nat → PageFetch) (now : Nat)
    (page per_page max_results : Nat) : Except String (List LocationRec) :=
  if per_page = 0 then .error "ZeroDivisionError"
  else
    let max_pages := (max_results + per_page - 1) / per_page
    match refugeLoop env per_page max_results max_pages page [] [] with
    | .error () => .ok []
    | .ok p =>
      let all_data := p.1
      let trimmed := if max_results < all_data.length then all_data.take max_results
                     else all_data
      transformAll now trimmed

/-! ## Mock restroom generator (`get_goweewee_restrooms`, lines 162–203) -/

/-- One mock GoWeeWee restroom (loop body, lines 180–201). -/
def mkGoweewee (lat lng : Rat) (now : Nat) (i : Nat) : LocationRec :=
  let lat_offset : Rat := ((i % 5 : Nat) : Rat) * 0.01
  let lng_offset : Rat := ((i % 3 : Nat) : Rat) * 0.01
  { id := none
    name := "GoWeeWee Restroom " ++ toString (i + 1)
    type := "restroom"
    address := "Mock Address " ++ toString (i + 1) ++ ", Mock City, MA"
    lat := lat + lat_offset
    lng := lng + lng_offset
    positive_count := 0
    neutral_count := 0
    negative_count := 0
    total_ratings := 0
    source := some "goweewee"
    external_id := "goweewee-" ++ toString (i + 1)
    ada_accessible := some (decide (i % 2 = 0))
    unisex := some (decide (i % 3 = 0))
    last_updated := now }

/-- Embeds `get_goweewee_restrooms`: the API is dead, the code always returns ten
deterministic mock restrooms around the query point (radius unused). -/
def get_goweewee_restrooms (lat lng : Rat) (_radius : Nat) (now : Nat) : List LocationRec :=
  (List.range 10).map (mkGoweewee lat lng now)

/-! ## Police-station loader (`load_police_stations_from_csv` and
`generate_mock_police_stations`, lines 205–329) -/

/-- A row of the police-stations CSV, restricted to the columns read. -/
structure CsvRow where
  X : Rat
  Y : Rat
  NAME : String
  ADDRESS : String
  CITY : String
  STATE : String
  ZIP : String
  OBJECTID : String
deriving DecidableEq

/-- The per-row transform (lines 230–285): affine state-plane → lat/lng
conversion anchored at Boston City Hall, with the ±0.5°/+0.05 bias
correction. -/
def transformStation (now : Nat) (row : CsvRow) : LocationRec :=
  let x_coord := row.X
  let y_coord := row.Y
  let ref_x : Rat := 236217.47
  let ref_y : Rat := 901349.05
  let ref_lat : Rat := 42.3601
  let ref_lng : Rat := -71.0589
  let x_scale : Rat := 0.00001
  let y_scale : Rat := 0.00001
  let x_offset := x_coord - ref_x
  let y_offset := y_coord - ref_y
  let lng0 := ref_lng + x_offset * x_scale
  let lat0 := ref_lat + y_offset * y_scale
  let lat_correction : Rat := 0.05
  let lng_correction : Rat := 0.05
  let lat1 := if lat0 < ref_lat - 0.5 then lat0 + lat_correction else lat0
  let lng1 := if lng0 < ref_lng - 0.5 then lng0 + lng_correction else lng0
  { id := none
    name := row.NAME
    type := "police"
    address := row.ADDRESS ++ ", " ++ row.CITY ++ ", " ++ row.STATE ++ " " ++ row.ZIP
    lat := lat1
    lng := lng1
    positive_count := 0
    neutral_count := 0
    negative_count := 0
    total_ratings := 0
    source := some "csv"
    external_id := row.OBJECTID
    ada_accessible := none
    unisex := none
    last_updated := now }

/-- One mock police station (loop body, lines 308–327). -/
def mkMockStation (now : Nat) (i : Nat) : LocationRec :=
  let boston_lat : Rat := 42.3601
  let boston_lng : Rat := -71.0589
  let lat_offset : Rat := ((i % 4 : Nat) : Rat) * 0.02
  let lng_offset : Rat := ((i % 3 : Nat) : Rat) * 0.02
  { id := none
    name := "Mock Police Station " ++ toString (i + 1)
    type := "police"
    address := "Mock Address " ++ toString (i + 1) ++ ", Boston, MA"
    lat := boston_lat + lat_offset
    lng := boston_lng + lng_offset
    positive_count := 0
    neutral_count := 0
    negative_count := 0
    total_ratings := 0
    source := some "csv"
    external_id := "mock-police-" ++ toString (i + 1)
    ada_accessible := none
    unisex := none
    last_updated := now }

/-- Embeds `generate_mock_police_stations`: eight deterministic stations around
Boston. -/
def generate_mock_police_stations (now : Nat) : List LocationRec :=
  (List.range 8).map (mkMockStation now)

/-- Embeds `load_police_stations_from_csv`: `none` models a missing or unreadable
CSV file (any exception falls back to the mock data); otherwise every row
is transformed. -/
def load_police_stations_from_csv (csvFile : Option (List CsvRow)) (now : Nat) :
    List LocationRec :=
  match csvFile with
  | none => generate_mock_police_stations now
  | some rows => rows.map (transformStation now)

/-! ## Aggregator (`get_all_external_locations`, lines 331–352) -/

/-- The aggregator's result dictionary: one list per source. -/
structure AggResult where
  refuge_restrooms : List LocationRec
  goweewee_restrooms : List LocationRec
  police_stations : List LocationRec
deriving DecidableEq

/-- Embeds `get_all_external_locations`: call the three adapters in order, with no
per-adapter exception handling — an exception escaping
`get_refuge_restrooms` propagates out of the aggregator. -/
def get_all_external_locations (env : Nat → PageFetch) (csvFile : Option (List CsvRow))
    (now : Nat) (lat lng : Rat) (radius max_restrooms : Nat) :
    Except String AggResult := do
  let refuge ← get_refuge_restrooms env now 1 50 max_restrooms
  let goweewee := get_goweewee_restrooms lat lng radius now
  let police := load_police_stations_from_csv csvFile now
  pure ⟨refuge, goweewee, police⟩

/-! ## External-locations endpoint (`get_external_locations`,
`app.py` lines 232–269) -/

/-- HTTP status of `GET /api/external-locations`.  Parameters are the raw
query strings (`none` = absent); the aggregation outcome is passed in as
`fetch`.  The handler parses `radius` first, rejects missing/empty lat or
lng with 400, parses lat/lng with `float` (a `ValueError` reaches the
generic `except` and yields 500), then returns the flattened list. -/
def get_external_locations_handler (latArg lngArg radiusArg : Option String)
    (fetch : Except String AggResult) : Nat :=
  let radiusParsed : Option Rat :=
    match radiusArg with
    | none => some 10
    | some s => strToRat s
  match radiusParsed with
  | none => 500
  | some _ =>
    if pyTruthyStr latArg = false ∨ pyTruthyStr lngArg = false then 400
    else
      match strToRat ((latArg).getD ""), strToRat ((lngArg).getD "") with
      | some _, some _ =>
        match fetch with
        | .ok _ => 200
        | .error _ => 500
      | _, _ => 500

/-! ## Theorems -/

/-- Example record with 3 positive, 1 negative, 4 total ratings. -/
def recC8 : LocationRec :=
  { id := some 1, name := "L", type := "restroom", address := "A", lat := 0, lng := 0,
    positive_count := 3, neutral_count := 0, negative_count := 1, total_ratings := 4,
    source := none, external_id := "", ada_accessible := none, unisex := none,
    last_updated := 0 }

/-- C8 counterexample: with positive_count = 3, negative_count = 1,
total_ratings = 4 the query service computes the normalized rating
3.75, not 4.375 as the claim states (the spec's arithmetic example is
wrong: ((3-1)/4+1)/2*5 = 3.75). -/
theorem normalized_rating_value_cex :
    computedRating recC8 = some 3.75 ∧ computedRating recC8 ≠ some 4.375 := by
  constructor
  · norm_num [computedRating, normalizedOf, recC8]
  · norm_num [computedRating, normalizedOf, recC8]

/-- C8 (amended): for total_ratings > 0 the query service computes the
normalized rating `((positive_count - negative_count)/total_ratings + 1)/2*5`;
for p=3, n=1, t=4 this value is 3.75 (not 4.375); for total_ratings = 0 no
rating is computed. -/
theorem normalized_rating_formula (r : LocationRec) :
    (0 < r.total_ratings →
      computedRating r =
        some ((((r.positive_count : Rat) - (r.negative_count : Rat)) /
          (r.total_ratings : Rat) + 1) / 2 * 5))
    ∧ (r.total_ratings = 0 → computedRating r = none)
    ∧ computedRating recC8 = some 3.75 := by
  refine ⟨fun h => ?_, fun h => ?_, ?_⟩
  · simp only [computedRating, if_pos h, normalizedOf]
    ring_nf
  · simp [computedRating, h]
  · norm_num [computedRating, normalizedOf, recC8]

/-- C8 witness: the formula theorem applied to the concrete record with
counts (3, 0, 1, 4). -/
theorem normalized_rating_formula_witness :
    computedRating recC8 =
      some ((((recC8.positive_count : Rat) - (recC8.negative_count : Rat)) /
        (recC8.total_ratings : Rat) + 1) / 2 * 5) :=
  (normalized_rating_formula recC8).1 (by norm_num [recC8])

/-- Unrated persisted record whose source is the empty string (non-null
but falsy in Python). -/
def recC2cex : LocationRec :=
  { id := some 2, name := "E", type := "restroom", address := "A", lat := 0, lng := 0,
    positive_count := 0, neutral_count := 0, negative_count := 0, total_ratings := 0,
    source := some "", external_id := "x", ada_accessible := none, unisex := none,
    last_updated := 0 }

/-- C2 counterexample: a record with total_ratings = 0 and the NON-NULL
source `some ""` is nevertheless dropped by the rating_min filter at
rating_min = 1, because the code tests Python truthiness of `source`, not
nullness. -/
theorem rating_filter_nonnull_cex :
    recC2cex.source ≠ none ∧ recC2cex.total_ratings = 0 ∧ (0 : Rat) < 1 ∧
      ratingFilterKeep recC2cex 1 = false := by
  refine ⟨by simp [recC2cex], rfl, by norm_num, ?_⟩
  norm_num [ratingFilterKeep, recC2cex, pyTruthyStr]
  rfl

/-- C2 (amended): an unrated record whose source is a NON-EMPTY string is
never excluded by the rating_min filter; an unrated record with null
source (user-submitted) is excluded whenever rating_min > 0; and an
unrated record whose source is the empty string is excluded like a
user-submitted one. -/
theorem rating_filter_unrated (r : LocationRec) (rating_min : Rat)
    (hz : r.total_ratings = 0) :
    (∀ s, r.source = some s → s ≠ "" → ratingFilterKeep r rating_min = true)
    ∧ (r.source = none → 0 < rating_min → ratingFilterKeep r rating_min = false)
    ∧ (r.source = some "" → 0 < rating_min → ratingFilterKeep r rating_min = false) := by
  refine ⟨fun s hs hne => ?_, fun hs hm => ?_, fun hs hm => ?_⟩
  · simp [ratingFilterKeep, hz, hs, pyTruthyStr, String.isEmpty_iff, hne]
  · simp [ratingFilterKeep, hz, hs, pyTruthyStr, hm]
  · simp [ratingFilterKeep, hz, hs, pyTruthyStr, hm]
    rfl

/-- Unrated externally-sourced record (source "csv"). -/
def recC2ext : LocationRec :=
  { recC2cex with source := some "csv" }

/-- Unrated user-submitted record (source null). -/
def recC2user : LocationRec :=
  { recC2cex with source := none }

/-- C2 witness: the amended filter theorem applied to a concrete unrated
external record (kept at rating_min = 2) and a concrete unrated
user-submitted record (dropped at rating_min = 2). -/
theorem rating_filter_unrated_witness :
    ratingFilterKeep recC2ext 2 = true ∧ ratingFilterKeep recC2user 2 = false :=
  ⟨(rating_filter_unrated recC2ext 2 rfl).1 "csv" rfl (by simp),
   (rating_filter_unrated recC2user 2 rfl).2.1 rfl (by norm_num)⟩

/-- C5: submitting a rating with `isNewLocation = false` and sentiment
"negative" against a stored location increments its total_ratings and
negative_count by exactly 1, leaves positive_count and neutral_count
unchanged, leaves every other document unchanged and adds none; when no
document with that id exists, the result is NotFound (404). -/
theorem submit_negative_rating (st : Store) (rating : RatingIn)
    (ld : Option LocationRec) (now lid : Nat)
    (hs : rating.sentiment = some "negative") (hl : rating.location_id = some lid) :
    (∀ d0, st.locations.find? (fun d => d.docId == lid) = some d0 →
      (submit_rating st rating false ld now).1 = .updatedExisting ∧
      (∃ d' ∈ (submit_rating st rating false ld now).2.locations,
        d'.docId = d0.docId ∧
        d'.data.total_ratings = d0.data.total_ratings + 1 ∧
        d'.data.negative_count = d0.data.negative_count + 1 ∧
        d'.data.positive_count = d0.data.positive_count ∧
        d'.data.neutral_count = d0.data.neutral_count) ∧
      (∀ d ∈ st.locations, d.docId ≠ lid →
        d ∈ (submit_rating st rating false ld now).2.locations) ∧
      (submit_rating st rating false ld now).2.locations.length = st.locations.length)
    ∧ (st.locations.find? (fun d => d.docId == lid) = none →
      (submit_rating st rating false ld now).1 = .notFound ∧
      (submit_rating st rating false ld now).2.locations = st.locations) := by
  constructor
  · intro d0 hfind
    have hmem : d0 ∈ st.locations := List.mem_of_find?_eq_some hfind
    have hid : d0.docId = lid := by
      have := List.find?_some hfind
      simpa using this
    simp only [submit_rating, hl, hfind]
    refine ⟨by trivial, ?_, ?_, ?_⟩
    · refine ⟨{ d0 with data := bumpCounts d0.data rating.sentiment },
        List.mem_map.mpr ⟨d0, hmem, by simp [hid]⟩, rfl, ?_⟩
      simp [bumpCounts, hs]
    · intro d hd hne
      refine List.mem_map.mpr ⟨d, hd, ?_⟩
      simp [hne, hid ▸ hne]
    · simp
  · intro hfind
    simp only [submit_rating, hl, hfind]
    exact ⟨by trivial, by trivial⟩

/-- Location data of a concrete stored document used in the C5 witness. -/
def recC5 : LocationRec :=
  { id := some 7, name := "Loc", type := "restroom", address := "A", lat := 1, lng := 2,
    positive_count := 4, neutral_count := 5, negative_count := 6, total_ratings := 15,
    source := none, external_id := "", ada_accessible := none, unisex := none,
    last_updated := 0 }

/-- Store holding the single document 7 for the C5 witness. -/
def stC5 : Store := ⟨8, [⟨7, recC5⟩], []⟩

/-- C5 witness: the theorem applied to a concrete store, once at the stored
document id 7 (update succeeds) and once at the absent id 9 (NotFound). -/
theorem submit_negative_rating_witness :
    (submit_rating stC5 ⟨some "negative", some 7⟩ false none 5).1 = .updatedExisting ∧
    (submit_rating stC5 ⟨some "negative", some 9⟩ false none 5).1 = .notFound := by
  constructor
  · exact ((submit_negative_rating stC5 ⟨some "negative", some 7⟩ none 5 7 rfl rfl).1
      ⟨7, recC5⟩ rfl).1
  · exact ((submit_negative_rating stC5 ⟨some "negative", some 9⟩ none 5 9 rfl rfl).2
      rfl).1

/-- C9: when a rating is submitted with `isNewLocation = false` and a
`location_id` absent from the store, the rating document has already been
written before the 404 is produced: the ratings collection grows by one
even on the NotFound path. -/
theorem rating_persisted_on_notfound (st : Store) (rating : RatingIn)
    (ld : Option LocationRec) (now lid : Nat)
    (hl : rating.location_id = some lid)
    (hab : st.locations.find? (fun d => d.docId == lid) = none) :
    (submit_rating st rating false ld now).1 = .notFound ∧
    (submit_rating st rating false ld now).2.ratings =
      st.ratings ++ [⟨st.nextId, rating.sentiment, rating.location_id, now⟩] ∧
    (submit_rating st rating false ld now).2.ratings.length = st.ratings.length + 1 := by
  simp only [submit_rating, hl, hab]
  exact ⟨by trivial, by trivial, by simp⟩

/-- C9 witness: submitting against the empty store with location_id 3
returns NotFound while the ratings collection has grown to one document. -/
theorem rating_persisted_on_notfound_witness :
    (submit_rating emptyStore ⟨some "positive", some 3⟩ false none 9).1 = .notFound ∧
    (submit_rating emptyStore ⟨some "positive", some 3⟩ false none 9).2.ratings.length =
      emptyStore.ratings.length + 1 :=
  have h := rating_persisted_on_notfound emptyStore ⟨some "positive", some 3⟩ none 9 3 rfl rfl
  ⟨h.1, h.2.2⟩

/-- The rating's sentiment is one of the three enum values of the data
model. -/
def validSentiment (s : Option String) : Prop :=
  s = some "positive" ∨ s = some "neutral" ∨ s = some "negative"

theorem bumpCounts_locInv (d : LocationRec) (s : Option String)
    (hv : validSentiment s) (hd : locInv d) : locInv (bumpCounts d s) := by
  rcases hv with h | h | h <;> simp_all [bumpCounts, locInv] <;> omega

/-- Invariant content of a buffered batch write: updates never touch the
counters, inserts carry the incoming record's counters. -/
def opInv : BatchOp → Prop
  | .update _ _ _ _ _ _ => True
  | .setDoc _ data => locInv data

theorem buildOps_opInv (orig : List Doc) (nid : Nat) (locs : List LocationRec)
    (h : ∀ r ∈ locs, locInv r) : ∀ op ∈ (buildOps orig nid locs).1, opInv op := by
  induction locs generalizing nid with
  | nil => simp [buildOps]
  | cons l rest ih =>
    intro op hop
    simp only [buildOps] at hop
    rcases hfk : findByKey orig l.external_id l.source with _ | ex
    · rw [hfk] at hop
      rcases List.mem_cons.mp hop with rfl | hop
      · have hinv : locInv l := h l (by simp)
        simpa [opInv, locInv] using hinv
      · exact ih (nid + 1) (fun r hr => h r (List.mem_cons_of_mem _ hr)) op hop
    · rw [hfk] at hop
      rcases List.mem_cons.mp hop with rfl | hop
      · trivial
      · exact ih nid (fun r hr => h r (List.mem_cons_of_mem _ hr)) op hop

theorem applyOp_locInv (l : List Doc) (op : BatchOp)
    (hl : ∀ d ∈ l, locInv d.data) (ho : opInv op) :
    ∀ d ∈ applyOp l op, locInv d.data := by
  cases op with
  | update did name address lat lng lu =>
    intro d hd
    rcases List.mem_map.mp hd with ⟨a, ha, rfl⟩
    by_cases hid : a.docId = did
    · simpa [hid, locInv] using hl a ha
    · simpa [hid] using hl a ha
  | setDoc did data =>
    intro d hd
    rcases List.mem_append.mp hd with hd | hd
    · exact hl d hd
    · simp only [List.mem_singleton] at hd
      subst hd
      exact ho

theorem applyOps_locInv (ops : List BatchOp) (l : List Doc)
    (hl : ∀ d ∈ l, locInv d.data) (ho : ∀ op ∈ ops, opInv op) :
    ∀ d ∈ applyOps l ops, locInv d.data := by
  induction ops generalizing l with
  | nil => simpa [applyOps] using hl
  | cons op rest ih =>
    simp only [applyOps, List.foldl_cons] at *
    exact ih (applyOp l op) (applyOp_locInv l op hl (ho op (by simp)))
      (fun o hor => ho o (by simp [hor]))

/-- Rating submission used in the C1 counterexample: its sentiment is
outside the positive/neutral/negative enum and no validation rejects it. -/
def ratC1 : RatingIn := ⟨some "meh", none⟩

/-- Location payload for the C1 counterexample. -/
def ldC1 : LocationRec :=
  { id := none, name := "New", type := "restroom", address := "A", lat := 0, lng := 0,
    positive_count := 0, neutral_count := 0, negative_count := 0, total_ratings := 0,
    source := none, external_id := "", ada_accessible := none, unisex := none,
    last_updated := 0 }

/-- The invariant-violating record the C1 counterexample creates. -/
def recC1bad : LocationRec := { ldC1 with total_ratings := 1 }

/-- C1 counterexample: submitting a new-location rating whose sentiment is
the string "meh" (the endpoint performs no validation) creates a location
with total_ratings = 1 and all three counters 0, so the invariant
total_ratings = positive + neutral + negative fails on a reachable record
although it held (vacuously) before the operation. -/
theorem rating_invariant_cex :
    (∀ d ∈ emptyStore.locations, locInv d.data) ∧
    ¬ (∀ d ∈ (submit_rating emptyStore ratC1 true (some ldC1) 0).2.locations,
        locInv d.data) := by
  have hloc : (submit_rating emptyStore ratC1 true (some ldC1) 0).2.locations =
      [⟨1, recC1bad⟩] := by
    simp [submit_rating, emptyStore, ratC1, recC1bad, ldC1]
  constructor
  · simp [emptyStore]
  · intro h
    have hbad := h ⟨1, recC1bad⟩ (by rw [hloc]; simp)
    simp [locInv, recC1bad, ldC1] at hbad

/-- C1 (amended): the invariant total_ratings = positive_count +
neutral_count + negative_count is preserved by rating submission (both the
new-location and the increment path) PROVIDED the rating's sentiment is one
of positive/neutral/negative, and by the persistence sync (update or
insert) provided every incoming record satisfies it; a sentiment outside
the enum breaks it. -/
theorem rating_invariant_preserved (st : Store) (rating : RatingIn)
    (is_new_location : Bool) (ld : Option LocationRec) (now : Nat)
    (locs : List LocationRec)
    (hv : validSentiment rating.sentiment)
    (hst : ∀ d ∈ st.locations, locInv d.data)
    (hlocs : ∀ r ∈ locs, locInv r) :
    (∀ d ∈ (submit_rating st rating is_new_location ld now).2.locations, locInv d.data)
    ∧ (∀ d ∈ (save_external_locations_to_firebase st locs).locations, locInv d.data) := by
  constructor
  · match hm : is_new_location, ld with
    | true, some l =>
      intro d hd
      simp only [submit_rating] at hd
      rcases List.mem_append.mp hd with hd | hd
      · exact hst d hd
      · simp only [List.mem_singleton] at hd
        subst hd
        rcases hv with h | h | h <;> simp [locInv, h]
    | true, none =>
      intro d hd
      rcases hli : rating.location_id with _ | lid
      · simp only [submit_rating, hli] at hd
        exact hst d hd
      · rcases hfind : st.locations.find? (fun d => d.docId == lid) with _ | d0
        · simp only [submit_rating, hli, hfind] at hd
          exact hst d hd
        · simp only [submit_rating, hli, hfind] at hd
          rcases List.mem_map.mp hd with ⟨a, ha, rfl⟩
          by_cases hid : a.docId = lid
          · simpa [hid] using bumpCounts_locInv a.data rating.sentiment hv (hst a ha)
          · simpa [hid] using hst a ha
    | false, _ =>
      intro d hd
      rcases hli : rating.location_id with _ | lid
      · simp only [submit_rating, hli] at hd
        exact hst d hd
      · rcases hfind : st.locations.find? (fun d => d.docId == lid) with _ | d0
        · simp only [submit_rating, hli, hfind] at hd
          exact hst d hd
        · simp only [submit_rating, hli, hfind] at hd
          rcases List.mem_map.mp hd with ⟨a, ha, rfl⟩
          by_cases hid : a.docId = lid
          · simpa [hid] using bumpCounts_locInv a.data rating.sentiment hv (hst a ha)
          · simpa [hid] using hst a ha
  · exact applyOps_locInv _ _ hst (buildOps_opInv st.locations st.nextId locs hlocs)

/-- C1 witness: the amended preservation theorem applied to a concrete
store (one document with counts 4+5+6 = 15), a concrete "negative"
submission against it, and a sync of one zero-count record. -/
theorem rating_invariant_preserved_witness :
    (∀ d ∈ (submit_rating stC5 ⟨some "negative", some 7⟩ false none 5).2.locations,
      locInv d.data)
    ∧ (∀ d ∈ (save_external_locations_to_firebase stC5 [ldC1]).locations, locInv d.data) :=
  rating_invariant_preserved stC5 ⟨some "negative", some 7⟩ false none 5 [ldC1]
    (Or.inr (Or.inr rfl))
    (by intro d hd; simp only [stC5, List.mem_singleton] at hd; subst hd; decide)
    (by intro r hr; simp only [List.mem_singleton] at hr; subst hr; decide)

theorem find?_eq_head?_filter {α : Type} (p : α → Bool) (l : List α) :
    l.find? p = (l.filter p).head? := by
  induction l with
  | nil => rfl
  | cons a l ih =>
    cases h : p a
    · rw [List.find?_cons_of_neg _ (by simp [h]), List.filter_cons_of_neg (by simp [h]), ih]
    · rw [List.find?_cons_of_pos _ h, List.filter_cons_of_pos h, List.head?_cons]

theorem keyMatch_of_preserving (g : Doc → Doc)
    (hg : ∀ d, (g d).data.external_id = d.data.external_id ∧
      (g d).data.source = d.data.source)
    (eid : String) (src : Option String) (d : Doc) :
    keyMatch eid src (g d) = keyMatch eid src d := by
  rw [keyMatch, keyMatch, (hg d).1, (hg d).2]

theorem countKey_map (g : Doc → Doc)
    (hg : ∀ d, (g d).data.external_id = d.data.external_id ∧
      (g d).data.source = d.data.source)
    (l : List Doc) (eid : String) (src : Option String) :
    countKey (l.map g) eid src = countKey l eid src := by
  induction l with
  | nil => rfl
  | cons d l ih =>
    simp only [countKey, List.map_cons, List.filter_cons,
      keyMatch_of_preserving g hg eid src d] at *
    cases hp : keyMatch eid src d
    · simpa [hp] using ih
    · simpa [hp] using ih

/-- The five-display-field in-place update the sync performs. -/
def displayUpdate (r : LocationRec) (d : Doc) : Doc :=
  { d with data := { d.data with
      name := r.name
      address := r.address
      lat := r.lat
      lng := r.lng
      last_updated := r.last_updated } }

/-- C3: the persistence sync is an idempotent keyed upsert.  Part 1: with
exactly one stored document matching (external_id, source), syncing the
record updates exactly the five display fields of that document in place,
preserves all four rating counters, leaves every other document and the
collection size unchanged, and exactly one document with the key remains.
Part 2: with no matching document, the record is inserted with the freshly
drawn document id, which differs from every existing id.  Part 3: syncing
the same record twice starting from the empty store leaves exactly one
document with its key. -/
theorem upsert_sync_keyed (st : Store) (r : LocationRec) :
    (∀ d0, st.locations.filter (keyMatch r.external_id r.source) = [d0] →
      countKey (save_external_locations_to_firebase st [r]).locations
        r.external_id r.source = 1 ∧
      (save_external_locations_to_firebase st [r]).locations.length =
        st.locations.length ∧
      (∃ d' ∈ (save_external_locations_to_firebase st [r]).locations,
        d'.docId = d0.docId ∧
        d'.data = (displayUpdate r d0).data ∧
        d'.data.positive_count = d0.data.positive_count ∧
        d'.data.neutral_count = d0.data.neutral_count ∧
        d'.data.negative_count = d0.data.negative_count ∧
        d'.data.total_ratings = d0.data.total_ratings) ∧
      (∀ d ∈ st.locations, d.docId ≠ d0.docId →
        d ∈ (save_external_locations_to_firebase st [r]).locations))
    ∧ (countKey st.locations r.external_id r.source = 0 →
      (∀ d ∈ st.locations, d.docId < st.nextId) →
      (save_external_locations_to_firebase st [r]).locations =
        st.locations ++ [⟨st.nextId, { r with id := some st.nextId }⟩] ∧
      (∀ d ∈ st.locations, d.docId ≠ st.nextId) ∧
      countKey (save_external_locations_to_firebase st [r]).locations
        r.external_id r.source = 1)
    ∧ countKey (save_external_locations_to_firebase
        (save_external_locations_to_firebase emptyStore [r]) [r]).locations
        r.external_id r.source = 1 := by
  refine ⟨?_, ?_, ?_⟩
  · intro d0 hone
    have hfind : findByKey st.locations r.external_id r.source = some d0 := by
      rw [findByKey, find?_eq_head?_filter, hone]
      rfl
    have hd0f : d0 ∈ st.locations.filter (keyMatch r.external_id r.source) := by
      rw [hone]
      exact List.mem_singleton.mpr rfl
    have hd0mem : d0 ∈ st.locations := List.mem_of_mem_filter hd0f
    simp only [save_external_locations_to_firebase, buildOps, hfind, applyOps,
      List.foldl_cons, List.foldl_nil, applyOp]
    have hfun : (fun d => if d.docId = d0.docId then { d with data := { d.data with name := r.name, address := r.address, lat := r.lat, lng := r.lng, last_updated := r.last_updated } } else d) = (fun d => if d.docId = d0.docId then displayUpdate r d else d) := rfl
    rw [hfun]
    refine ⟨?_, by simp, ?_, ?_⟩
    · rw [countKey_map]
      · simpa [countKey] using congrArg List.length hone
      · intro d
        by_cases hid : d.docId = d0.docId <;> simp [hid, displayUpdate]
    · refine ⟨_, List.mem_map_of_mem _ hd0mem, ?_⟩
      simp [displayUpdate]
    · intro d hd hne
      have himg : (if d.docId = d0.docId then displayUpdate r d else d) = d := by
        simp [hne]
      exact himg ▸ List.mem_map_of_mem _ hd
  · intro hzero hwf
    have hfilter : st.locations.filter (keyMatch r.external_id r.source) = [] :=
      List.length_eq_zero.mp hzero
    have hfind : findByKey st.locations r.external_id r.source = none := by
      rw [findByKey, find?_eq_head?_filter, hfilter]
      rfl
    simp only [save_external_locations_to_firebase, buildOps, hfind, applyOps,
      List.foldl_cons, List.foldl_nil, applyOp]
    refine ⟨by trivial, fun d hd => Nat.ne_of_lt (hwf d hd), ?_⟩
    simp [countKey, List.filter_append, hfilter, keyMatch]
  · have h1 : save_external_locations_to_firebase emptyStore [r] =
        ⟨1, [⟨0, { r with id := some 0 }⟩], []⟩ := by
      simp [save_external_locations_to_firebase, buildOps, findByKey, applyOps,
        applyOp, emptyStore]
    rw [h1]
    have hfind2 : findByKey [⟨0, { r with id := some 0 }⟩] r.external_id r.source =
        some ⟨0, { r with id := some 0 }⟩ := by
      simp [findByKey, keyMatch]
    simp only [save_external_locations_to_firebase, buildOps, hfind2, applyOps,
      List.foldl_cons, List.foldl_nil, applyOp]
    simp [countKey, keyMatch]

/-- Incoming external record used in the C3 witness. -/
def recC3 : LocationRec :=
  { id := none
    name := "Fresh Name"
    type := "restroom"
    address := "New Addr"
    lat := 3
    lng := 4
    positive_count := 0
    neutral_count := 0
    negative_count := 0
    total_ratings := 0
    source := some "refuge_restrooms"
    external_id := "42"
    ada_accessible := some true
    unisex := some false
    last_updated := 99 }

/-- Stored version of the same key with accumulated ratings, for the C3
witness. -/
def recC3old : LocationRec :=
  { id := some 2
    name := "Old Name"
    type := "restroom"
    address := "Old Addr"
    lat := 1
    lng := 2
    positive_count := 8
    neutral_count := 1
    negative_count := 2
    total_ratings := 11
    source := some "refuge_restrooms"
    external_id := "42"
    ada_accessible := some true
    unisex := some false
    last_updated := 10 }

/-- Store already holding the record with key ("42", refuge_restrooms). -/
def stC3 : Store := ⟨3, [⟨2, recC3old⟩], []⟩

/-- C3 witness: the upsert theorem applied to a concrete store that already
holds the key (still exactly one record afterwards), to a concrete store
without it (inserted with fresh id), and to the double sync from the empty
store. -/
theorem upsert_sync_keyed_witness :
    countKey (save_external_locations_to_firebase stC3 [recC3]).locations
      recC3.external_id recC3.source = 1 ∧
    (save_external_locations_to_firebase emptyStore [recC3]).locations =
      emptyStore.locations ++
        [⟨emptyStore.nextId, { recC3 with id := some emptyStore.nextId }⟩] ∧
    countKey (save_external_locations_to_firebase
      (save_external_locations_to_firebase emptyStore [recC3]) [recC3]).locations
      recC3.external_id recC3.source = 1 := by
  refine ⟨((upsert_sync_keyed stC3 recC3).1 ⟨2, recC3old⟩ ?_).1,
    ((upsert_sync_keyed emptyStore recC3).2.1 ?_ ?_).1,
    (upsert_sync_keyed emptyStore recC3).2.2⟩
  · simp [stC3, List.filter, recC3old, recC3, keyMatch]
  · simp [countKey, emptyStore]
  · simp [emptyStore]

theorem transformAll_length (now : Nat) (l : List RawRestroom) (res : List LocationRec)
    (h : transformAll now l = .ok res) : res.length = l.length := by
  induction l generalizing res with
  | nil =>
    simp only [transformAll, Except.ok.injEq] at h
    simp [← h]
  | cons i rest ih =>
    simp only [transformAll] at h
    cases ht : transformRestroom now i with
    | error e => simp [ht] at h
    | ok r =>
      rw [ht] at h
      cases hrest : transformAll now rest with
      | error e => simp [hrest] at h
      | ok rs =>
        rw [hrest] at h
        simp only [Except.ok.injEq] at h
        subst h
        simp [ih rs hrest]

theorem refugeLoop_stop (env : Nat → PageFetch) (pp mr mp cur : Nat)
    (acc : List RawRestroom) (f : List Nat) (h : ¬ acc.length < mr) :
    refugeLoop env pp mr mp cur acc f = .ok (acc, f) := by
  rw [refugeLoop.eq_def]
  rw [dif_neg h]

theorem refugeLoop_fail (env : Nat → PageFetch) (pp mr mp cur : Nat)
    (acc : List RawRestroom) (f : List Nat) (h : acc.length < mr)
    (he : env cur = .fail) :
    refugeLoop env pp mr mp cur acc f = .error () := by
  rw [refugeLoop.eq_def]
  rw [dif_pos h, he]

theorem refugeLoop_short (env : Nat → PageFetch) (pp mr mp cur : Nat)
    (acc : List RawRestroom) (f : List Nat) (pageData : List RawRestroom)
    (h : acc.length < mr) (he : env cur = .ok pageData)
    (hs : pageData.isEmpty ∨ pageData.length < pp) :
    refugeLoop env pp mr mp cur acc f = .ok (acc ++ pageData, f ++ [cur]) := by
  rw [refugeLoop.eq_def]
  rw [dif_pos h, he]
  exact if_pos hs

theorem refugeLoop_full_stop (env : Nat → PageFetch) (pp mr mp cur : Nat)
    (acc : List RawRestroom) (f : List Nat) (pageData : List RawRestroom)
    (h : acc.length < mr) (he : env cur = .ok pageData)
    (hs : ¬ (pageData.isEmpty ∨ pageData.length < pp))
    (h3 : mr ≤ (acc ++ pageData).length ∨ mp < cur + 1) :
    refugeLoop env pp mr mp cur acc f = .ok (acc ++ pageData, f ++ [cur]) := by
  rw [refugeLoop.eq_def]
  rw [dif_pos h, he]
  exact (if_neg hs).trans (if_pos h3)

theorem refugeLoop_go (env : Nat → PageFetch) (pp mr mp cur : Nat)
    (acc : List RawRestroom) (f : List Nat) (pageData : List RawRestroom)
    (h : acc.length < mr) (he : env cur = .ok pageData)
    (hs : ¬ (pageData.isEmpty ∨ pageData.length < pp))
    (h3 : ¬ (mr ≤ (acc ++ pageData).length ∨ mp < cur + 1)) :
    refugeLoop env pp mr mp cur acc f =
      refugeLoop env pp mr mp (cur + 1) (acc ++ pageData) (f ++ [cur]) := by
  rw [refugeLoop.eq_def]
  rw [dif_pos h, he]
  exact (if_neg hs).trans (if_neg h3)

theorem refugeLoop_pages_bounded (env : Nat → PageFetch) (pp mr mp k : Nat)
    (kitems : List RawRestroom) (hk : env k = .ok kitems) (hshort : kitems.length < pp)
    (cur : Nat) (acc : List RawRestroom) (f : List Nat) (hcur : cur ≤ k)
    (hf : ∀ p ∈ f, p ≤ k) (d : List RawRestroom) (ps : List Nat)
    (hrun : refugeLoop env pp mr mp cur acc f = .ok (d, ps)) : ∀ p ∈ ps, p ≤ k := by
  by_cases h : acc.length < mr
  · cases henv : env cur with
    | fail =>
      rw [refugeLoop_fail env pp mr mp cur acc f h henv] at hrun
      simp at hrun
    | ok pageData =>
      by_cases hs : (pageData.isEmpty ∨ pageData.length < pp)
      · rw [refugeLoop_short env pp mr mp cur acc f pageData h henv hs] at hrun
        simp only [Except.ok.injEq, Prod.mk.injEq] at hrun
        obtain ⟨-, rfl⟩ := hrun
        intro p hp
        rcases List.mem_append.mp hp with hp | hp
        · exact hf p hp
        · simp only [List.mem_singleton] at hp
          omega
      · by_cases h3 : (mr ≤ (acc ++ pageData).length ∨ mp < cur + 1)
        · rw [refugeLoop_full_stop env pp mr mp cur acc f pageData h henv hs h3] at hrun
          simp only [Except.ok.injEq, Prod.mk.injEq] at hrun
          obtain ⟨-, rfl⟩ := hrun
          intro p hp
          rcases List.mem_append.mp hp with hp | hp
          · exact hf p hp
          · simp only [List.mem_singleton] at hp
            omega
        · rw [refugeLoop_go env pp mr mp cur acc f pageData h henv hs h3] at hrun
          have hne : cur ≠ k := by
            intro he
            subst he
            rw [hk] at henv
            injection henv with he2
            subst he2
            exact hs (Or.inr hshort)
          exact refugeLoop_pages_bounded env pp mr mp k kitems hk hshort (cur + 1)
            (acc ++ pageData) (f ++ [cur]) (by omega)
            (fun p hp => by
              rcases List.mem_append.mp hp with hp | hp
              · exact hf p hp
              · simp only [List.mem_singleton] at hp
                omega)
            d ps hrun
  · rw [refugeLoop_stop env pp mr mp cur acc f h] at hrun
    simp only [Except.ok.injEq, Prod.mk.injEq] at hrun
    obtain ⟨-, rfl⟩ := hrun
    exact hf
termination_by mr - acc.length
decreasing_by
  simp only [List.length_append]
  have hne2 : pageData ≠ [] := by
    intro hx
    exact hs (Or.inl (by simp [hx]))
  have hpos : 0 < pageData.length := List.length_pos.mpr hne2
  exact Nat.sub_lt_sub_left h (by omega)

/-- C6: the paginated Refuge fetch stops as soon as a page returns fewer
items than the per-page request size — no page beyond the short page `k`
is ever fetched, even when max_results has not been reached — and the
returned list never holds more than max_results records. -/
theorem refuge_pagination (env : Nat → PageFetch) (pp mr mp : Nat) :
    (∀ start k kitems d ps, env k = PageFetch.ok kitems → kitems.length < pp →
      start ≤ k → refugeLoop env pp mr mp start [] [] = .ok (d, ps) →
      ∀ p ∈ ps, p ≤ k)
    ∧ (∀ now page l, get_refuge_restrooms env now page pp mr = .ok l →
      l.length ≤ mr) := by
  constructor
  · intro start k kitems d ps hk hshort hstart hrun
    exact refugeLoop_pages_bounded env pp mr mp k kitems hk hshort start [] []
      hstart (by simp) d ps hrun
  · intro now page l hget
    rw [get_refuge_restrooms] at hget
    split at hget
    · exact absurd hget (by simp)
    · dsimp only at hget
      rcases hloop : refugeLoop env pp mr ((mr + pp - 1) / pp) page [] [] with _ | p
      · rw [hloop] at hget
        simp only [Except.ok.injEq] at hget
        subst hget
        simp
      · rw [hloop] at hget
        simp only at hget
        have hlen := transformAll_length now _ l hget
        rw [hlen]
        split
        · simp
        · rename_i hle
          omega

/-- Environment whose every page is empty, for the C6 witness. -/
def envC6 : Nat → PageFetch := fun _ => .ok []

/-- C6 witness: with every page empty, page 1 is already short, the loop
fetches only page 1 even though max_results = 5000 was never reached, and
the adapter returns 0 ≤ 5000 records. -/
theorem refuge_pagination_witness :
    (∀ p ∈ ([1] : List Nat), p ≤ 1) ∧ ([] : List LocationRec).length ≤ 5000 := by
  have hloop : refugeLoop envC6 50 5000 100 1 [] [] = .ok ([], [1]) := by
    rw [refugeLoop.eq_def]
    simp [envC6]
  constructor
  · exact (refuge_pagination envC6 50 5000 100).1 1 1 [] [] [1] rfl (by norm_num)
      le_rfl hloop
  · refine (refuge_pagination envC6 50 5000 100).2 0 1 [] ?_
    simp only [get_refuge_restrooms]
    norm_num
    rw [hloop]
    simp [transformAll]


/-- Raw Refuge item whose latitude is a non-numeric string: `float("abc")`
raises `ValueError`, which `get_refuge_restrooms` does not catch. -/
def badItemC4 : RawRestroom :=
  { name := some "Bad"
    street := none
    city := none
    state := none
    latitude := .str "abc"
    longitude := .num 0
    rid := "9"
    accessible := false
    unisex := false }

/-- Environment in which page 1 holds the single malformed item. -/
def badEnvC4 : Nat → PageFetch := fun p => if p = 1 then .ok [badItemC4] else .ok []

/-- C4 counterexample: with one malformed item in the remote response, the
`ValueError` escapes `get_refuge_restrooms` and aborts the whole
`get_all_external_locations` call, although both other adapters (which were
never even called) would have produced their full lists — 10 mock
goweewee restrooms and 8 mock police stations. -/
theorem aggregator_failure_aborts_cex :
    get_all_external_locations badEnvC4 none 0 0 0 10 5 = .error "ValueError" ∧
    (get_goweewee_restrooms 0 0 10 0).length = 10 ∧
    (load_police_stations_from_csv none 0).length = 8 := by
  have hloop : refugeLoop badEnvC4 50 5 1 1 [] [] = .ok ([badItemC4], [1]) :=
    refugeLoop_short badEnvC4 50 5 1 1 [] [] [badItemC4] (by norm_num) rfl
      (Or.inr (by norm_num))
  have hab : strToRat "abc" = none := rfl
  have hrefuge : get_refuge_restrooms badEnvC4 0 1 50 5 = .error "ValueError" := by
    rw [get_refuge_restrooms, if_neg (by norm_num)]
    dsimp only
    norm_num
    rw [hloop]
    simp only [transformAll, transformRestroom, pyFloat, hab, badItemC4]
    rfl
  refine ⟨?_, ?_, ?_⟩
  · simp [get_all_external_locations, hrefuge]
  · simp [get_goweewee_restrooms]
  · simp [load_police_stations_from_csv, generate_mock_police_stations]

/-- C4 (amended): a network/HTTP failure (`requests.RequestException`) in
the remote restroom adapter is isolated — the adapter returns an empty
list and the aggregation still returns the other sources' full lists; a
missing CSV likewise degrades to mock police stations.  But an exception
outside that class (e.g. `ValueError` from a malformed numeric field)
propagates and aborts the whole aggregation. -/
theorem aggregator_http_failure_isolated (env : Nat → PageFetch)
    (csv : Option (List CsvRow)) (now : Nat) (lat lng : Rat) (radius m : Nat)
    (hm : 0 < m) (hfail : env 1 = PageFetch.fail) :
    get_all_external_locations env csv now lat lng radius m =
      .ok ⟨[], get_goweewee_restrooms lat lng radius now,
        load_police_stations_from_csv csv now⟩ := by
  have hrefuge : get_refuge_restrooms env now 1 50 m = .ok [] := by
    rw [get_refuge_restrooms, if_neg (by norm_num)]
    dsimp only
    rw [refugeLoop_fail env 50 m ((m + 50 - 1) / 50) 1 [] [] (by simpa using hm) hfail]
  simp [get_all_external_locations, hrefuge]

/-- Environment in which every page request fails with a network error. -/
def envC4fail : Nat → PageFetch := fun _ => .fail

/-- C4 witness: the isolation theorem applied to the all-fail environment —
the aggregate still carries the goweewee and police lists. -/
theorem aggregator_http_failure_isolated_witness :
    get_all_external_locations envC4fail none 0 0 0 10 3 =
      .ok ⟨[], get_goweewee_restrooms 0 0 10 0, load_police_stations_from_csv none 0⟩ :=
  aggregator_http_failure_isolated envC4fail none 0 0 0 10 3 (by norm_num) rfl

/-- C7 counterexample: a present-but-malformed latitude ("abc") makes
`float(lat)` raise inside the endpoint's generic try/except, producing a
500 — not the 400 the claim requires for malformed coordinates. -/
theorem external_locations_malformed_cex :
    get_external_locations_handler (some "abc") (some "1") none (.ok ⟨[], [], []⟩) = 500 ∧
    get_external_locations_handler (some "abc") (some "1") none (.ok ⟨[], [], []⟩) ≠ 400 := by
  have hab : strToRat "abc" = none := rfl
  have h : get_external_locations_handler (some "abc") (some "1") none
      (.ok ⟨[], [], []⟩) = 500 := by
    simp [get_external_locations_handler, pyTruthyStr, hab]
    exact ⟨rfl, rfl⟩
  exact ⟨h, by rw [h]; norm_num⟩

/-- C7 (amended): provided the radius parameter is absent or well-formed
(it is parsed first), a missing or empty lat/lng yields 400; lat and lng
present but not parseable as numbers yield 500 (the generic handler), not
400; and in no missing-or-malformed case does the endpoint return a
success response. -/
theorem external_locations_validation (latArg lngArg radiusArg : Option String)
    (fetch : Except String AggResult) :
    ((pyTruthyStr latArg = false ∨ pyTruthyStr lngArg = false) →
      (∀ s, radiusArg = some s → strToRat s ≠ none) →
      get_external_locations_handler latArg lngArg radiusArg fetch = 400)
    ∧ (pyTruthyStr latArg = true → pyTruthyStr lngArg = true →
      (strToRat (latArg.getD "") = none ∨ strToRat (lngArg.getD "") = none) →
      (∀ s, radiusArg = some s → strToRat s ≠ none) →
      get_external_locations_handler latArg lngArg radiusArg fetch = 500)
    ∧ ((pyTruthyStr latArg = false ∨ pyTruthyStr lngArg = false ∨
        strToRat (latArg.getD "") = none ∨ strToRat (lngArg.getD "") = none) →
      get_external_locations_handler latArg lngArg radiusArg fetch ≠ 200) := by
  refine ⟨?_, ?_, ?_⟩
  · intro hmiss hrad
    rcases radiusArg with _ | s
    · rcases hmiss with h | h <;> simp [get_external_locations_handler, h]
    · rcases hq : strToRat s with _ | q
      · exact absurd hq (hrad s rfl)
      · rcases hmiss with h | h <;> simp [get_external_locations_handler, hq, h]
  · intro h1 h2 hnone hrad
    rcases radiusArg with _ | s
    · rcases hla : strToRat (latArg.getD "") with _ | a <;>
        rcases hlb : strToRat (lngArg.getD "") with _ | b <;>
        simp [get_external_locations_handler, h1, h2, hla, hlb]
      rcases hnone with h | h
      · exact absurd (hla ▸ h) (by simp)
      · exact absurd (hlb ▸ h) (by simp)
    · rcases hq : strToRat s with _ | q
      · exact absurd hq (hrad s rfl)
      · rcases hla : strToRat (latArg.getD "") with _ | a <;>
          rcases hlb : strToRat (lngArg.getD "") with _ | b <;>
          simp [get_external_locations_handler, hq, h1, h2, hla, hlb]
        rcases hnone with h | h
        · exact absurd (hla ▸ h) (by simp)
        · exact absurd (hlb ▸ h) (by simp)
  · intro hbad
    rcases radiusArg with _ | s
    · cases h1 : pyTruthyStr latArg <;> cases h2 : pyTruthyStr lngArg <;>
        rcases hla : strToRat (latArg.getD "") with _ | a <;>
        rcases hlb : strToRat (lngArg.getD "") with _ | b <;>
        simp [get_external_locations_handler, h1, h2, hla, hlb] <;>
        [skip] <;> first
        | (rcases hbad with h | h | h | h <;>
            first
            | exact absurd (h1 ▸ h) (by simp)
            | exact absurd (h2 ▸ h) (by simp)
            | exact absurd (hla ▸ h) (by simp)
            | exact absurd (hlb ▸ h) (by simp))
        | skip
    · rcases hq : strToRat s with _ | q
      · simp [get_external_locations_handler, hq]
      · cases h1 : pyTruthyStr latArg <;> cases h2 : pyTruthyStr lngArg <;>
          rcases hla : strToRat (latArg.getD "") with _ | a <;>
          rcases hlb : strToRat (lngArg.getD "") with _ | b <;>
          simp [get_external_locations_handler, hq, h1, h2, hla, hlb] <;>
          [skip] <;> first
          | (rcases hbad with h | h | h | h <;>
              first
              | exact absurd (h1 ▸ h) (by simp)
              | exact absurd (h2 ▸ h) (by simp)
              | exact absurd (hla ▸ h) (by simp)
              | exact absurd (hlb ▸ h) (by simp))
          | skip


theorem transformRestroom_zero (now : Nat) (item : RawRestroom) (r : LocationRec)
    (h : transformRestroom now item = .ok r) : zeroCounts r ∧ locInv r := by
  simp only [transformRestroom, bind, Except.bind] at h
  cases hla : pyFloat item.latitude with
  | error e =>
    rw [hla] at h
    simp at h
  | ok la =>
    rw [hla] at h
    cases hlo : pyFloat item.longitude with
    | error e =>
      rw [hlo] at h
      simp at h
    | ok lo =>
      rw [hlo] at h
      simp only [pure, Except.pure, Except.ok.injEq] at h
      subst h
      exact ⟨⟨rfl, rfl, rfl, rfl⟩, rfl⟩

theorem transformAll_zero (now : Nat) (l : List RawRestroom) (res : List LocationRec)
    (h : transformAll now l = .ok res) : ∀ r ∈ res, zeroCounts r ∧ locInv r := by
  induction l generalizing res with
  | nil =>
    simp only [transformAll, Except.ok.injEq] at h
    subst h
    simp
  | cons i rest ih =>
    simp only [transformAll] at h
    cases ht : transformRestroom now i with
    | error e => simp [ht] at h
    | ok r0 =>
      rw [ht] at h
      cases hrest : transformAll now rest with
      | error e => simp [hrest] at h
      | ok rs =>
        rw [hrest] at h
        simp only [Except.ok.injEq] at h
        subst h
        intro r hr
        rcases List.mem_cons.mp hr with rfl | hr
        · exact transformRestroom_zero now i r ht
        · exact ih rs hrest r hr

/-- C10: every record produced by any of the four external-source paths
(remote Refuge adapter, GoWeeWee mock generator, CSV police loader, mock
police fallback) has positive_count = neutral_count = negative_count =
total_ratings = 0, and hence satisfies the rating-count invariant. -/
theorem adapters_zero_counts :
    (∀ env now page pp mr l, get_refuge_restrooms env now page pp mr = .ok l →
      ∀ r ∈ l, zeroCounts r ∧ locInv r)
    ∧ (∀ lat lng radius now, ∀ r ∈ get_goweewee_restrooms lat lng radius now,
      zeroCounts r ∧ locInv r)
    ∧ (∀ csv now, ∀ r ∈ load_police_stations_from_csv csv now,
      zeroCounts r ∧ locInv r) := by
  refine ⟨?_, ?_, ?_⟩
  · intro env now page pp mr l hget r hr
    rw [get_refuge_restrooms] at hget
    split at hget
    · exact absurd hget (by simp)
    · dsimp only at hget
      rcases hloop : refugeLoop env pp mr ((mr + pp - 1) / pp) page [] [] with _ | p
      · rw [hloop] at hget
        simp only [Except.ok.injEq] at hget
        subst hget
        simp at hr
      · rw [hloop] at hget
        exact transformAll_zero now _ l hget r hr
  · intro lat lng radius now r hr
    simp only [get_goweewee_restrooms] at hr
    rcases List.mem_map.mp hr with ⟨i, hi, rfl⟩
    exact ⟨⟨rfl, rfl, rfl, rfl⟩, rfl⟩
  · intro csv now r hr
    cases csv with
    | none =>
      simp only [load_police_stations_from_csv, generate_mock_police_stations] at hr
      rcases List.mem_map.mp hr with ⟨i, hi, rfl⟩
      exact ⟨⟨rfl, rfl, rfl, rfl⟩, rfl⟩
    | some rows =>
      simp only [load_police_stations_from_csv] at hr
      rcases List.mem_map.mp hr with ⟨row, hrow, rfl⟩
      exact ⟨⟨rfl, rfl, rfl, rfl⟩, rfl⟩

/-- C10 witness: the zero-counts theorem applied to the first mock
GoWeeWee restroom generated for the query point (0, 0). -/
theorem adapters_zero_counts_witness :
    zeroCounts (mkGoweewee 0 0 0 0) ∧ locInv (mkGoweewee 0 0 0 0) :=
  adapters_zero_counts.2.1 0 0 10 0 (mkGoweewee 0 0 0 0)
    (by
      simp only [get_goweewee_restrooms]
      exact List.mem_map_of_mem _ (by simp))


/-- C7 witness: the validation theorem applied to a request with lat
missing (400) and to a request with lat = "abc" (500). -/
theorem external_locations_validation_witness :
    get_external_locations_handler none (some "1") none (.ok ⟨[], [], []⟩) = 400 ∧
    get_external_locations_handler (some "x") (some "1") none (.ok ⟨[], [], []⟩) = 500 := by
  constructor
  · exact (external_locations_validation none (some "1") none (.ok ⟨[], [], []⟩)).1
      (Or.inl rfl) (fun s hs => by cases hs)
  · exact (external_locations_validation (some "x") (some "1") none
      (.ok ⟨[], [], []⟩)).2.1 rfl rfl (Or.inl rfl) (fun s hs => by cases hs)

end BlueShark
